import Mathlib

/-! Verification of the kay-enterprise-server booking core.

A shallow embedding, in Lean 4, of the reference-number generator and the
seat/capacity allocation logic of the kay-enterprise-server repository
(Django / Django-REST-framework, Python).  Python strings are modelled as
Lean `String` manipulated through their underlying `List Char`; Python
`Decimal(max_digits=10, decimal_places=2)` money values as `Int` counts of
hundredths of a GHS (all amounts in this code are sums and integer
multiples of exact two-decimal literals, so this is exact: `Decimal('2.00')`
is `200`); Python `datetime` values as `Int` minutes
on a single timeline; database rows as Lean structures, and the database
side effects of each request handler as explicit state passing.  Fallible
handlers return `Except String α`, the error carrying the message the
caller would receive.
-/

/-! ## Python string primitives

Each helper mirrors the semantics of the corresponding Python `str`
operation (restricted to the ASCII data that flows through this code base),
operating on the character list of the string. -/

/-- Python `s.startswith(p)` (also the Django `__startswith` queryset
lookup): `p` is a prefix of `s`, compared character by character. -/
def pyStartsWith1 : List Char → List Char → Bool
  | [], _ => true
  | _ :: _, [] => false
  | a :: as, b :: bs => a = b && pyStartsWith1 as bs

/-- String version of `s.startswith(p)`. -/
def pyStartsWith (s p : String) : Bool := pyStartsWith1 p.data s.data

/-- Python string comparison `s < t` (lexicographic on code points); this is
also the `ORDER BY reference_number DESC` comparison of the database for the
ASCII identifiers stored here. -/
def pyLt1 : List Char → List Char → Bool
  | [], [] => false
  | [], _ :: _ => true
  | _ :: _, [] => false
  | a :: as, b :: bs =>
    if a.toNat < b.toNat then true
    else if b.toNat < a.toNat then false
    else pyLt1 as bs

/-- String version of `s < t`. -/
def pyLt (s t : String) : Bool := pyLt1 s.data t.data

/-- Python `s.strip()` for ASCII whitespace. -/
def pyStripChars (l : List Char) : List Char :=
  ((l.dropWhile Char.isWhitespace).reverse.dropWhile Char.isWhitespace).reverse

/-- String version of `s.strip()`. -/
def pyStrip (s : String) : String := ⟨pyStripChars s.data⟩

/-- Python `s.split(',')`: split on every comma; `"".split(',') == [""]`. -/
def pySplitComma : List Char → List (List Char)
  | [] => [[]]
  | c :: cs =>
    if c = ',' then [] :: pySplitComma cs
    else
      match pySplitComma cs with
      | [] => [[c]]
      | g :: gs => (c :: g) :: gs

/-- Python `s.upper()` on the ASCII characters that occur here
(UUID hex digits and hyphens). -/
def pyUpperChar (c : Char) : Char :=
  if 97 ≤ c.toNat ∧ c.toNat ≤ 122 then Char.ofNat (c.toNat - 32) else c

/-- String version of `s.upper()`. -/
def pyUpper (s : String) : String := ⟨s.data.map pyUpperChar⟩

/-- Python `s[:n]`. -/
def pyTake (s : String) (n : Nat) : String := ⟨s.data.take n⟩

/-- Python `s[-3:]`: the last three characters (all of `s` if shorter). -/
def pyLast3 (s : String) : String := ⟨s.data.drop (s.data.length - 3)⟩

/-- Python `f"{n:02d}"`: decimal rendering of `n`, zero-padded to width 2. -/
def pad2 (n : Nat) : String :=
  if n < 100 then ⟨[Nat.digitChar (n / 10), Nat.digitChar (n % 10)]⟩
  else Nat.repr n

/-- Python `f"{n:03d}"`: decimal rendering of `n`, zero-padded to width 3. -/
def pad3 (n : Nat) : String :=
  if n < 1000 then
    ⟨[Nat.digitChar (n / 100), Nat.digitChar (n / 10 % 10), Nat.digitChar (n % 10)]⟩
  else Nat.repr n

/-- Python `int(s)` on a non-empty all-digit string (`none` models the
`ValueError` raised on any other input). -/
def pyInt (l : List Char) : Option Nat :=
  if l ≠ [] ∧ l.all (fun c => decide (48 ≤ c.toNat ∧ c.toNat ≤ 57)) then
    some (l.foldl (fun a c => 10 * a + (c.toNat - 48)) 0)
  else none

/-! ## Reference-number generator (`agents/models.py`, `quotes/models.py`)

`Agent.generate_reference_number` and the inline block of `BusQuote.save`
are the same algorithm with prefixes `AG` and `BQ`; the function below is
that algorithm, parameterised by the composed `prefix + period` string
`pre`.  The `store` is the list of reference numbers currently in the
database table, newest first.

```python
last_agent = Agent.objects.filter(
    reference_number__startswith=f'AG{year}{month:02d}'
).order_by('-reference_number').first()
if last_agent:
    last_number = int(last_agent.reference_number[-3:])
    new_number = last_number + 1
else:
    new_number = 1
return f'AG{year}{month:02d}{new_number:03d}'
```
-/

/-- Django `order_by('-reference_number').first()`: the lexicographically greatest
stored string, `none` on an empty query set. -/
def maxRef : List String → Option String
  | [] => none
  | r :: rs => some (rs.foldl (fun m x => if pyLt m x then x else m) r)

/-- The filter-max-parse-increment-render generation algorithm shared by
`Agent.generate_reference_number` and `BusQuote.save`, with `pre` the
composed `prefix + period` string.  (`int(...)` cannot fail on any store
reachable by this generator; `getD 0` stands for the unreachable
`ValueError` branch.) -/
def generate_reference_number (pre : String) (store : List String) : String :=
  match maxRef (store.filter fun r => pyStartsWith r pre) with
  | none => pre ++ pad3 1
  | some last => pre ++ pad3 ((pyInt (pyLast3 last).data).getD 0 + 1)

/-- Source `Agent.generate_reference_number`: prefix `f'AG{year}{month:02d}'`. -/
def agent_generate_reference_number (store : List String) (year month : Nat) : String :=
  generate_reference_number ("AG" ++ Nat.repr year ++ pad2 month) store

/-- The reference-number block of `BusQuote.save`: prefix
`f"BQ{now.year}{now.month:02d}"`. -/
def quote_generate_reference_number (store : List String) (year month : Nat) : String :=
  generate_reference_number ("BQ" ++ Nat.repr year ++ pad2 month) store

/-- Source `Agent.save` and `BusQuote.save`: generate a reference when none is set,
then insert the row; the table's `unique=True` constraint on
`reference_number` makes the insert raise `IntegrityError` on a duplicate,
and the method has no `try`/`except` and no retry, so the error propagates
to the caller.  Returns the stored reference and the new store. -/
def agent_save (store : List String) (reference_number : String) (year month : Nat) :
    Except String (String × List String) :=
  let ref := if reference_number = "" then agent_generate_reference_number store year month
             else reference_number
  if ref ∈ store then .error "duplicate key value violates unique constraint"
  else .ok (ref, ref :: store)

/-- The store after `k` sequential generations with composed prefix `pre`,
starting from no prior record, each generated reference committed before
the next call (newest first). -/
def genStore (pre : String) : Nat → List String
  | 0 => []
  | k + 1 => generate_reference_number pre (genStore pre k) :: genStore pre k

/-- Reference shape `pre ++ pad3 i`: the shape of every reference this generator emits. -/
def mkRef (pre : String) (i : Nat) : String := pre ++ pad3 i

/-! ## Data model for the seat/booking core

Fields are those the request handlers in `booking/serializers.py`,
`booking/views.py`, `payments/serializers.py` and `payments/views.py` read
and write.  `Decimal` amounts are `Int` hundredths; datetimes (`scheduled_departure`,
`payment_deadline`, `now`) are `Int` minutes on one timeline; status enums
are the `String` values of `utils/contants.py`. -/

/-- A `Trip` row as used by the booking handlers. -/
structure Trip where
  status : String
  total_seats : Int
  available_seats : Int
  fare : Int
  scheduled_departure : Int
  deriving DecidableEq

/-- A `Booking` row as used by the booking and payment handlers. -/
structure Booking where
  booking_reference : String
  passenger_name : String
  passenger_phone : String
  seat_numbers : String
  number_of_seats : Int
  fare_per_seat : Int
  total_fare : Int
  booking_fee : Int
  total_amount : Int
  booking_status : String
  payment_status : String
  payment_deadline : Int
  special_requests : String
  deriving DecidableEq

/-- A `Payment` row (`payments/models.py`). -/
structure Payment where
  payment_reference : String
  amount : Int
  currency : String
  payment_method : String
  mobile_money_provider : String
  mobile_money_number : String
  status : String
  notes : String
  deriving DecidableEq

/-- The client-supplied fields of `BookingCreateSerializer`
(absent optional fields are `""`; `number_of_seats` defaults to 1 upstream). -/
structure BookingRequest where
  number_of_seats : Int
  seat_numbers : String
  passenger_name : String
  passenger_phone : String
  special_requests : String
  deriving DecidableEq

/-! ## Booking creation (`BookingCreateSerializer`) -/

/-- Python `[seat.strip() for seat in value.split(',')]`. -/
def seatStrings (value : String) : List String :=
  (pySplitComma value.data).map fun l => (⟨pyStripChars l⟩ : String)

/-- Python `[seat.strip() for seat in seat_numbers.split(',') if seat.strip()]`. -/
def seatStringsNonempty (value : String) : List String :=
  (seatStrings value).filter fun s => s ≠ ""

/-- Source `BookingCreateSerializer.validate_passenger_phone`. -/
def validate_passenger_phone (value : String) : Except String Unit :=
  if pyStartsWith value "+233" ∨ pyStartsWith value "0" then .ok ()
  else .error "Enter a valid Ghanaian phone number"

/-- Source `BookingCreateSerializer.validate_seat_numbers`. -/
def validate_seat_numbers (value : String) : Except String Unit :=
  if value = "" ∨ pyStrip value = "" then .error "Seat numbers are required"
  else if (seatStrings value).length = 0 then .error "At least one seat must be selected"
  else .ok ()

/-- Source `BookingCreateSerializer.validate` (the object-level check, run after
the field validators): trip bookable, capacity, seat count matches. -/
def booking_validate (trip : Trip) (req : BookingRequest) : Except String Unit :=
  if ¬ (trip.status = "scheduled" ∨ trip.status = "boarding") then
    .error "This trip is not available for booking"
  else if trip.available_seats < req.number_of_seats then
    .error ("Only " ++ toString trip.available_seats ++ " seats available on this trip")
  else if ¬ (((seatStringsNonempty req.seat_numbers).length : Int) = req.number_of_seats) then
    .error "Number of seats must match the count of seat numbers provided"
  else .ok ()

/-- Source `BookingCreateSerializer.create`: build the booking row with the
automatic price calculations and decrement the trip's seats.  `nowDate` is
`datetime.now().strftime('%Y%m%d')`, `nowMin` the current time in minutes,
`u` the value of `str(uuid.uuid4())`.  The new `Booking` starts in the
model-default lifecycle state (`pending`/`pending`, `utils/contants.py`). -/
def booking_create (trip : Trip) (req : BookingRequest) (nowDate : String) (nowMin : Int)
    (u : String) : Booking × Trip :=
  let booking_reference := "KB" ++ nowDate ++ pyUpper (pyTake u 6)
  let fare_per_seat := trip.fare
  let total_fare := fare_per_seat * req.number_of_seats
  let booking_fee : Int := 200
  let total_amount := total_fare + booking_fee
  let b : Booking :=
    { booking_reference := booking_reference
      passenger_name := req.passenger_name
      passenger_phone := req.passenger_phone
      seat_numbers := req.seat_numbers
      number_of_seats := req.number_of_seats
      fare_per_seat := fare_per_seat
      total_fare := total_fare
      booking_fee := booking_fee
      total_amount := total_amount
      booking_status := "pending"
      payment_status := "pending"
      payment_deadline := nowMin + 120
      special_requests := req.special_requests }
  (b, { trip with available_seats := trip.available_seats - req.number_of_seats })

/-- The full `serializer.is_valid()`-then-`save()` pipeline of a booking
creation request: field validators, then `validate`, then `create`; any
validation error is returned to the caller unchanged (the serializer does
not retry) and leaves the trip row untouched. -/
def create_booking (trip : Trip) (req : BookingRequest) (nowDate : String) (nowMin : Int)
    (u : String) : Except String (Booking × Trip) := do
  _ ← validate_passenger_phone req.passenger_phone
  _ ← validate_seat_numbers req.seat_numbers
  _ ← booking_validate trip req
  pure (booking_create trip req nowDate nowMin u)

/-! ## Booking cancellation (`BookingViewSet.cancel`, `booking/views.py`) -/

/-- Source `BookingViewSet.cancel`: reject when the status is already `cancelled`
or `completed` or the trip has departed; otherwise mark the booking
cancelled and add its seats back to the trip (no cap). -/
def booking_cancel (booking : Booking) (trip : Trip) (nowMin : Int) :
    Except String (Booking × Trip) :=
  if booking.booking_status = "cancelled" ∨ booking.booking_status = "completed" then
    .error "Booking cannot be cancelled"
  else if trip.scheduled_departure ≤ nowMin then
    .error "Cannot cancel booking for past trips"
  else
    .ok ({ booking with booking_status := "cancelled" },
         { trip with available_seats := trip.available_seats + booking.number_of_seats })

/-! ## Payments (`payments/serializers.py`, `payments/views.py`) -/

/-- The client-supplied fields of `PaymentCreateSerializer`
(absent optional fields are `""`). -/
structure PaymentRequest where
  payment_method : String
  mobile_money_provider : String
  mobile_money_number : String
  deriving DecidableEq

/-- Source `PaymentCreateSerializer.validate_mobile_money_number`. -/
def validate_mobile_money_number (value : String) : Except String Unit :=
  if value ≠ "" ∧ ¬ (pyStartsWith value "+233" ∨ pyStartsWith value "0") then
    .error "Enter a valid Ghanaian mobile money number"
  else .ok ()

/-- Source `PaymentCreateSerializer.validate`: mobile-money fields required for
mobile-money payments, and a booking already `paid` is rejected. -/
def payment_validate (booking : Booking) (req : PaymentRequest) : Except String Unit :=
  if req.payment_method = "mobile_money" ∧ req.mobile_money_provider = "" then
    .error "Mobile money provider is required"
  else if req.payment_method = "mobile_money" ∧ req.mobile_money_number = "" then
    .error "Mobile money number is required"
  else if booking.payment_status = "paid" then
    .error "This booking has already been paid"
  else .ok ()

/-- Source `PaymentCreateSerializer.create`: reference `PAY` + date + first 8 uuid
characters uppercased; amount copied from the booking; currency `GHS`;
model-default status `pending`. -/
def payment_create (booking : Booking) (req : PaymentRequest) (nowDate : String)
    (u : String) : Payment :=
  { payment_reference := "PAY" ++ nowDate ++ pyUpper (pyTake u 8)
    amount := booking.total_amount
    currency := "GHS"
    payment_method := req.payment_method
    mobile_money_provider := req.mobile_money_provider
    mobile_money_number := req.mobile_money_number
    status := "pending"
    notes := "" }

/-- Full `is_valid()`-then-`save()` pipeline of a payment creation request. -/
def create_payment (booking : Booking) (req : PaymentRequest) (nowDate : String)
    (u : String) : Except String Payment := do
  _ ← validate_mobile_money_number req.mobile_money_number
  _ ← payment_validate booking req
  pure (payment_create booking req nowDate u)

/-- Source `PaymentViewSet.refund`: only a `successful` payment can be refunded;
on success the payment and booking become `refunded` and the booking's
seats are added back to the trip (no cap, and no check of the booking's
own status). -/
def payment_refund (payment : Payment) (booking : Booking) (trip : Trip) (reason : String) :
    Except String (Payment × Booking × Trip) :=
  if payment.status ≠ "successful" then
    .error "Only successful payments can be refunded"
  else
    .ok ({ payment with status := "refunded", notes := "Refunded: " ++ reason },
         { booking with payment_status := "refunded", booking_status := "refunded" },
         { trip with available_seats := trip.available_seats + booking.number_of_seats })

/-- Source `LuggageCreateSerializer.create`, the tag-generation line only:
`f"LG{datetime.now().strftime('%Y%m%d')}{str(uuid.uuid4())[:6].upper()}"`. -/
def luggage_tag (nowDate : String) (u : String) : String :=
  "LG" ++ nowDate ++ pyUpper (pyTake u 6)

/-! ## Remaining definitions: stores, formats and concrete fixtures -/

/-- The store of references `pre ++ 001 … pre ++ pad3 k`, newest first. -/
def descList (pre : String) : Nat → List String
  | 0 => []
  | k + 1 => mkRef pre (k + 1) :: descList pre k

deriving instance DecidableEq for Except

def quote_save (store : List String) (reference_number : String) (year month : Nat) :
    Except String (String × List String) :=
  let ref := if reference_number = "" then quote_generate_reference_number store year month
             else reference_number
  if ref ∈ store then .error "duplicate key value violates unique constraint"
  else .ok (ref, ref :: store)

/-- Whether `c` is an ASCII digit or lowercase hex letter. -/
def lowerHexChar (c : Char) : Bool :=
  decide ((48 ≤ c.toNat ∧ c.toNat ≤ 57) ∨ (97 ≤ c.toNat ∧ c.toNat ≤ 102))

/-- Whether `c` is an ASCII digit or uppercase hex letter. -/
def upperHexChar (c : Char) : Bool :=
  decide ((48 ≤ c.toNat ∧ c.toNat ≤ 57) ∨ (65 ≤ c.toNat ∧ c.toNat ≤ 70))

/-- The fixed format of `str(uuid.uuid4())`, as far as the reference
builders consume it: at least 8 characters long and its first 8 characters
are lowercase hex digits. -/
def uuid4Format (u : String) : Prop :=
  8 ≤ u.data.length ∧ ∀ c ∈ u.data.take 8, lowerHexChar c = true

instance uuid4FormatDec (u : String) : Decidable (uuid4Format u) := by
  unfold uuid4Format
  infer_instance

/-- A concrete bookable trip (fares in hundredths of GHS). -/
def tripFix : Trip :=
  { status := "scheduled", total_seats := 10, available_seats := 10, fare := 5000,
    scheduled_departure := 1000 }

/-- A concrete well-formed booking request for two seats. -/
def reqFix : BookingRequest :=
  { number_of_seats := 2, seat_numbers := "A1, A2", passenger_name := "Ama",
    passenger_phone := "0241234567", special_requests := "" }

/-- A concrete `successful` payment. -/
def payFix : Payment :=
  { payment_reference := "P", amount := 10200, currency := "GHS",
    payment_method := "cash", mobile_money_provider := "", mobile_money_number := "",
    status := "successful", notes := "" }

/-- A concrete UUID string. -/
def uuidFix : String := "123e4567-e89b-12d3-a456-426614174000"

def cancelledFix : Booking :=
  { (booking_create tripFix reqFix "20250101" 0 uuidFix).1 with booking_status := "cancelled" }

/-- A cancel immediately followed by a refund of the same booking: the
sequence the idempotency claim says must release seats only once. -/
def cancel_refund_chain (b : Booking) (t : Trip) (p : Payment) : Except String Int := do
  let (b1, t1) ← booking_cancel b t 0
  let (_, _, t2) ← payment_refund p b1 t1 "after cancellation"
  pure t2.available_seats

def cancelledWontFix : Booking :=
  { (booking_create tripFix reqFix "20250101" 0 uuidFix).1 with booking_status := "pending" }

/-- Book two seats, cancel the booking, then refund its payment: every step
is accepted by the handlers. Returns (available_seats, total_seats). -/
def overbook_chain : Except String (Int × Int) := do
  let (b, t1) ← create_booking tripFix reqFix "20250101" 0 uuidFix
  let (b1, t2) ← booking_cancel b t1 5
  let (_, _, t3) ← payment_refund payFix b1 t2 "second release"
  pure (t3.available_seats, t3.total_seats)

def bookedFix : Booking := (booking_create tripFix reqFix "20250101" 0 uuidFix).1

def tripAfterFix : Trip := (booking_create tripFix reqFix "20250101" 0 uuidFix).2

def tripRestoredFix : Trip :=
  { tripAfterFix with available_seats := tripAfterFix.available_seats + bookedFix.number_of_seats }

def payReqFix : PaymentRequest :=
  { payment_method := "cash", mobile_money_provider := "", mobile_money_number := "" }

/-! ## Lemmas and theorems -/

lemma digitChar_toNat : ∀ d : Nat, d < 10 → (Nat.digitChar d).toNat = 48 + d := by decide

lemma pyLt1_irrefl : ∀ l, pyLt1 l l = false := by
  intro l
  induction l with
  | nil => rfl
  | cons a as ih => simp [pyLt1, ih]

lemma pyLt1_append_same : ∀ p a b, pyLt1 (p ++ a) (p ++ b) = pyLt1 a b := by
  intro p a b
  induction p with
  | nil => rfl
  | cons c cs ih => simp [pyLt1, ih]

lemma strData_append (s t : String) : (s ++ t).data = s.data ++ t.data := by
  cases s; cases t; rfl

lemma pad3_data {n : Nat} (h : n < 1000) :
    (pad3 n).data = [Nat.digitChar (n / 100), Nat.digitChar (n / 10 % 10), Nat.digitChar (n % 10)] := by
  simp [pad3, h]

lemma pyLt1_pad3 {a b : Nat} (ha : a < 1000) (hb : b < 1000) :
    (pyLt1 (pad3 a).data (pad3 b).data = true ↔ a < b) := by
  rw [pad3_data ha, pad3_data hb]
  have h1 : a / 100 < 10 := by omega
  have h2 : a / 10 % 10 < 10 := by omega
  have h3 : a % 10 < 10 := by omega
  have h4 : b / 100 < 10 := by omega
  have h5 : b / 10 % 10 < 10 := by omega
  have h6 : b % 10 < 10 := by omega
  simp only [pyLt1, digitChar_toNat _ h1, digitChar_toNat _ h2, digitChar_toNat _ h3,
    digitChar_toNat _ h4, digitChar_toNat _ h5, digitChar_toNat _ h6]
  split_ifs <;> simp <;> omega

lemma mkRef_data (pre : String) (i : Nat) : (mkRef pre i).data = pre.data ++ (pad3 i).data := by
  simp [mkRef, strData_append]

lemma pyLt_mkRef {a b : Nat} (pre : String) (ha : a < 1000) (hb : b < 1000) :
    (pyLt (mkRef pre a) (mkRef pre b) = true ↔ a < b) := by
  rw [pyLt, mkRef_data, mkRef_data, pyLt1_append_same, pyLt1_pad3 ha hb]

lemma pyLt_mkRef_false {a b : Nat} (pre : String) (ha : a < 1000) (hb : b < 1000)
    (h : b ≤ a) : pyLt (mkRef pre a) (mkRef pre b) = false := by
  have := pyLt_mkRef pre ha hb
  cases hc : pyLt (mkRef pre a) (mkRef pre b)
  · rfl
  · exact absurd (this.mp hc) (by omega)

lemma pyStartsWith1_append : ∀ p x, pyStartsWith1 p (p ++ x) = true := by
  intro p x
  induction p with
  | nil => rfl
  | cons c cs ih => simp [pyStartsWith1, ih]

lemma startsWith_mkRef (pre : String) (i : Nat) : pyStartsWith (mkRef pre i) pre = true := by
  rw [pyStartsWith, mkRef_data, pyStartsWith1_append]

lemma foldl_max_stay (a : String) (l : List String) (h : ∀ x ∈ l, pyLt a x = false) :
    l.foldl (fun m x => if pyLt m x then x else m) a = a := by
  induction l with
  | nil => rfl
  | cons x xs ih =>
    have hx := h x (by simp)
    simp only [List.foldl_cons, hx, if_false]
    exact ih fun y hy => h y (by simp [hy])

lemma mem_descList {pre : String} : ∀ {k x}, x ∈ descList pre k → ∃ i, 1 ≤ i ∧ i ≤ k ∧ x = mkRef pre i := by
  intro k
  induction k with
  | zero => intro x hx; simp [descList] at hx
  | succ j ih =>
    intro x hx
    rcases List.mem_cons.mp hx with h | h
    · exact ⟨j + 1, by omega, by omega, h⟩
    · obtain ⟨i, h1, h2, h3⟩ := ih h
      exact ⟨i, h1, by omega, h3⟩

lemma maxRef_descList {k : Nat} (pre : String) (hk : k + 1 ≤ 999) :
    maxRef (descList pre (k + 1)) = some (mkRef pre (k + 1)) := by
  show some _ = _
  congr 1
  apply foldl_max_stay
  intro x hx
  obtain ⟨i, h1, h2, h3⟩ := mem_descList hx
  subst h3
  exact pyLt_mkRef_false pre (by omega) (by omega) (by omega)

lemma pad3_length {k : Nat} (h : k < 1000) : (pad3 k).data.length = 3 := by
  rw [pad3_data h]; rfl

lemma drop_append_same : ∀ (a b : List Char), (a ++ b).drop a.length = b := by
  intro a b
  induction a with
  | nil => rfl
  | cons c cs ih => simp [ih]

lemma pyLast3_mkRef {k : Nat} (pre : String) (h : k < 1000) :
    (pyLast3 (mkRef pre k)).data = (pad3 k).data := by
  show ((mkRef pre k).data.drop _) = _
  rw [mkRef_data]
  have hl : (pre.data ++ (pad3 k).data).length = pre.data.length + 3 := by
    simp [pad3_length h]
  rw [hl]
  have : pre.data.length + 3 - 3 = pre.data.length := by omega
  rw [this, drop_append_same]

lemma pyInt_pad3 {k : Nat} (h : k < 1000) : pyInt (pad3 k).data = some k := by
  rw [pad3_data h]
  have h1 : k / 100 < 10 := by omega
  have h2 : k / 10 % 10 < 10 := by omega
  have h3 : k % 10 < 10 := by omega
  rw [pyInt, if_pos]
  · congr 1
    simp only [List.foldl, digitChar_toNat _ h1, digitChar_toNat _ h2, digitChar_toNat _ h3]
    omega
  · refine ⟨by simp, ?_⟩
    simp only [List.all_cons, List.all_nil, Bool.and_eq_true, decide_eq_true_eq,
      digitChar_toNat _ h1, digitChar_toNat _ h2, digitChar_toNat _ h3, Bool.and_true,
      and_true]
    omega

lemma filter_descList (pre : String) (k : Nat) :
    (descList pre k).filter (fun r => pyStartsWith r pre) = descList pre k := by
  induction k with
  | zero => rfl
  | succ j ih => simp [descList, List.filter_cons, startsWith_mkRef, ih]

lemma gen_descList {k : Nat} (pre : String) (hk : k ≤ 999) :
    generate_reference_number pre (descList pre k) = mkRef pre (k + 1) := by
  cases k with
  | zero => rfl
  | succ j =>
    rw [generate_reference_number, filter_descList, maxRef_descList pre hk]
    show pre ++ pad3 ((pyInt (pyLast3 (mkRef pre (j+1))).data).getD 0 + 1) = _
    rw [pyLast3_mkRef pre (by omega), pyInt_pad3 (by omega)]
    rfl

lemma genStore_eq_descList {k : Nat} (pre : String) (hk : k ≤ 999) :
    genStore pre k = descList pre k := by
  induction k with
  | zero => rfl
  | succ j ih =>
    have hj : j ≤ 999 := by omega
    rw [genStore, ih hj, gen_descList pre (by omega)]
    rfl

lemma pyLt_mkRef_1000_999 (pre : String) :
    pyLt (mkRef pre 1000) (mkRef pre 999) = true := by
  rw [pyLt, mkRef_data, mkRef_data, pyLt1_append_same]
  decide

lemma foldl_to_999 (pre : String) :
    (descList pre 999).foldl (fun m x => if pyLt m x then x else m) (mkRef pre 1000) =
      mkRef pre 999 := by
  show ((mkRef pre 999 :: descList pre 998).foldl _ _) = _
  simp only [List.foldl_cons, pyLt_mkRef_1000_999, if_true]
  apply foldl_max_stay
  intro x hx
  obtain ⟨i, h1, h2, h3⟩ := mem_descList hx
  subst h3
  exact pyLt_mkRef_false pre (by omega) (by omega) (by omega)

lemma startsWith_mkRef_filter (pre : String) (m : Nat) :
    (List.replicate m (mkRef pre 1000) ++ descList pre 999).filter
      (fun r => pyStartsWith r pre) = List.replicate m (mkRef pre 1000) ++ descList pre 999 := by
  induction m with
  | zero => simpa using filter_descList pre 999
  | succ j ih => simp [List.replicate_succ, List.filter_cons, startsWith_mkRef, ih]

lemma pyLt_mkRef_irrefl (pre : String) (i : Nat) : pyLt (mkRef pre i) (mkRef pre i) = false := by
  rw [pyLt, pyLt1_irrefl]

lemma foldl_rollover (pre : String) : ∀ j,
    (List.replicate j (mkRef pre 1000) ++ descList pre 999).foldl
      (fun m x => if pyLt m x then x else m) (mkRef pre 1000) = mkRef pre 999 := by
  intro j
  induction j with
  | zero => simpa using foldl_to_999 pre
  | succ i ih =>
    rw [List.replicate_succ, List.cons_append, List.foldl_cons, pyLt_mkRef_irrefl, if_neg]
    · exact ih
    · simp

lemma gen_rollover (pre : String) (m : Nat) :
    generate_reference_number pre (List.replicate m (mkRef pre 1000) ++ descList pre 999) =
      mkRef pre 1000 := by
  rw [generate_reference_number, startsWith_mkRef_filter]
  have hmax : maxRef (List.replicate m (mkRef pre 1000) ++ descList pre 999) =
      some (mkRef pre 999) := by
    cases m with
    | zero =>
      simpa using maxRef_descList pre (k := 998) (by omega)
    | succ j =>
      rw [List.replicate_succ, List.cons_append]
      show some _ = _
      congr 1
      exact foldl_rollover pre j
  rw [hmax]
  show pre ++ pad3 ((pyInt (pyLast3 (mkRef pre 999)).data).getD 0 + 1) = _
  rw [pyLast3_mkRef pre (by omega), pyInt_pad3 (by omega)]
  rfl

lemma genStore_rollover (pre : String) : ∀ m,
    genStore pre (999 + m) = List.replicate m (mkRef pre 1000) ++ descList pre 999 := by
  intro m
  induction m with
  | zero => simpa using genStore_eq_descList pre (k := 999) (by omega)
  | succ j ih =>
    have : 999 + (j + 1) = (999 + j) + 1 := by omega
    rw [this, genStore, ih, gen_rollover pre j, List.replicate_succ, List.cons_append]

lemma agent_pre_2025_1 : ("AG" ++ Nat.repr 2025 ++ pad2 1) = "AG202501" := by decide

lemma agent_generate_eq (store : List String) :
    agent_generate_reference_number store 2025 1 = generate_reference_number "AG202501" store := by
  rw [agent_generate_reference_number, agent_pre_2025_1]

/-- Claim C2 (amended): under sequential generation with a fixed
prefix+period, the `k`-th call returns the reference with suffix `k` for
every `k ≤ 1000` (suffixes strictly increasing with no gaps up to the
rollover), but once 999 prior suffixes exist every further call returns
the same reference `pre ++ "1000"` again: the `-3:` slice of
`pre ++ "1000"` parses as `000`, so the lexicographic maximum stays
`pre ++ "999"` and the generator recomputes `999 + 1` forever. -/
theorem generator_suffix_rollover :
    (∀ (pre : String) (k : Nat), 1 ≤ k → k ≤ 1000 →
        (genStore pre k).head? = some (mkRef pre k)) ∧
    (∀ (pre : String) (k : Nat), 999 ≤ k →
        generate_reference_number pre (genStore pre k) = mkRef pre 1000) := by
  constructor
  · intro pre k h1 h2
    rcases Nat.lt_or_ge k 1000 with h | h
    · rw [genStore_eq_descList pre (by omega)]
      obtain ⟨j, rfl⟩ : ∃ j, k = j + 1 := ⟨k - 1, by omega⟩
      rfl
    · have hk : k = 999 + 1 := by omega
      subst hk
      rw [genStore_rollover pre 1]
      rfl
  · intro pre k h
    obtain ⟨m, rfl⟩ : ∃ m, k = 999 + m := ⟨k - 999, by omega⟩
    rw [genStore_rollover pre m, gen_rollover pre m]

/-- Claim C2, witness: the amended statement instantiated at three
sequential calls and at the 1000th call (the rollover). -/
theorem generator_suffix_rollover_witness :
    (genStore "AG202501" 3).head? = some (mkRef "AG202501" 3) ∧
    generate_reference_number "AG202501" (genStore "AG202501" 999) = mkRef "AG202501" 1000 :=
  ⟨generator_suffix_rollover.1 "AG202501" 3 (by decide) (by decide),
   generator_suffix_rollover.2 "AG202501" 999 (by decide)⟩

/-- Claim C2, counterexample: with prefix `AG` and period `202501`, the
1001st sequential generation returns exactly the same reference as the
1000th (`AG2025011000`), so the numeric suffixes of sequential calls are
not strictly increasing once the counter passes 999. -/
theorem generator_call_1001_repeats_1000 :
    (genStore "AG202501" 1001).head? = (genStore "AG202501" 1000).head? ∧
    (genStore "AG202501" 1000).head? = some "AG2025011000" := by
  have h1001 : genStore "AG202501" 1001 =
      List.replicate 2 (mkRef "AG202501" 1000) ++ descList "AG202501" 999 :=
    genStore_rollover "AG202501" 2
  have h1000 : genStore "AG202501" 1000 =
      List.replicate 1 (mkRef "AG202501" 1000) ++ descList "AG202501" 999 :=
    genStore_rollover "AG202501" 1
  rw [h1001, h1000]
  refine ⟨rfl, ?_⟩
  show some (mkRef "AG202501" 1000) = some "AG2025011000"
  decide

/-- Claim C5: the generator composes prefix+period, takes the stored
identifier with the greatest suffix, parses its trailing 3 digits, adds 1
(starting from 1 when no identifier exists) and renders it zero-padded to
3 digits: with no prior record it returns `AG202501001`, then
`AG202501002`; and in general on a store holding suffixes `1 … k`
(`k ≤ 999`) it returns the reference with suffix `k + 1`. -/
theorem generator_algorithm_examples :
    agent_generate_reference_number [] 2025 1 = "AG202501001" ∧
    agent_generate_reference_number ["AG202501001"] 2025 1 = "AG202501002" ∧
    (∀ (pre : String) (k : Nat), k ≤ 999 →
        generate_reference_number pre (descList pre k) = mkRef pre (k + 1)) := by
  refine ⟨by decide, by decide, ?_⟩
  intro pre k hk
  exact gen_descList pre hk

/-- Claim C5, witness: the general clause instantiated at the quote
prefix `BQ202501` with suffixes `1 … 5` stored. -/
theorem generator_algorithm_examples_witness :
    generate_reference_number "BQ202501" (descList "BQ202501" 5) = mkRef "BQ202501" 6 :=
  generator_algorithm_examples.2.2 "BQ202501" 5 (by decide)

/-- Claim C7, counterexample: with `AG2025011000` and `AG202501999`
stored (the store produced by passing the 999 rollover), `Agent.save`
generates `AG2025011000` again and the raw duplicate-key constraint
violation is returned to the caller: generation is not retried. -/
theorem save_duplicate_error_surfaced :
    agent_save ["AG2025011000", "AG202501999"] "" 2025 1 =
      .error "duplicate key value violates unique constraint" := by decide

/-- Claim C7 (amended): `Agent.save` and `BusQuote.save` have no retry
loop: whenever the generated reference already exists in the store, the
insert surfaces the raw uniqueness-constraint error to the caller; in
particular the 1001st sequential `Agent.save` (after the counter passes
999) fails this way. -/
theorem save_has_no_retry :
    (∀ (store : List String) (year month : Nat),
        agent_generate_reference_number store year month ∈ store →
        agent_save store "" year month =
          .error "duplicate key value violates unique constraint") ∧
    (∀ (store : List String) (year month : Nat),
        quote_generate_reference_number store year month ∈ store →
        quote_save store "" year month =
          .error "duplicate key value violates unique constraint") ∧
    agent_save (genStore "AG202501" 1000) "" 2025 1 =
      .error "duplicate key value violates unique constraint" := by
  refine ⟨?_, ?_, ?_⟩
  · intro store year month h
    simp [agent_save, h]
  · intro store year month h
    simp [quote_save, h]
  · have hmem : agent_generate_reference_number (genStore "AG202501" 1000) 2025 1 ∈
        genStore "AG202501" 1000 := by
      rw [agent_generate_eq]
      rw [genStore_rollover "AG202501" 1, gen_rollover "AG202501" 1]
      simp
    simp [agent_save, hmem]

/-- Claim C7, witness: the quote-save clause instantiated at a store
holding `BQ2025011000` and `BQ202501999`. -/
theorem save_has_no_retry_witness :
    quote_save ["BQ2025011000", "BQ202501999"] "" 2025 1 =
      .error "duplicate key value violates unique constraint" :=
  save_has_no_retry.2.1 ["BQ2025011000", "BQ202501999"] 2025 1 (by decide)

lemma toNat_ofNat_valid {n : Nat} (h : n < 55296) : (Char.ofNat n).toNat = n := by
  rw [Char.ofNat, dif_pos (Or.inl h)]
  rfl

lemma pyUpperChar_hex {c : Char} (h : lowerHexChar c = true) :
    upperHexChar (pyUpperChar c) = true := by
  rw [lowerHexChar, decide_eq_true_eq] at h
  rw [pyUpperChar]
  rcases h with h | h
  · rw [if_neg (by omega)]
    rw [upperHexChar, decide_eq_true_eq]
    omega
  · rw [if_pos (by omega)]
    rw [upperHexChar, decide_eq_true_eq]
    rw [toNat_ofNat_valid (by omega)]
    omega

lemma hex_suffix_aux {u : String} (n : Nat) (hn : n ≤ 8) (h : uuid4Format u) :
    (pyUpper (pyTake u n)).data.length = n ∧
    ∀ c ∈ (pyUpper (pyTake u n)).data, upperHexChar c = true := by
  obtain ⟨hlen, hhex⟩ := h
  constructor
  · show ((u.data.take n).map pyUpperChar).length = n
    rw [List.length_map, List.length_take]
    omega
  · intro c hc
    show upperHexChar c = true
    obtain ⟨c0, hc0, rfl⟩ := List.mem_map.mp hc
    apply pyUpperChar_hex
    apply hhex
    have : u.data.take n = (u.data.take 8).take n := by
      rw [List.take_take, Nat.min_eq_left hn]
    exact List.take_subset n _ (this ▸ hc0)

lemma pySplitComma_ne_nil : ∀ l, pySplitComma l ≠ [] := by
  intro l
  cases l with
  | nil => simp [pySplitComma]
  | cons c cs =>
    rw [pySplitComma]
    split
    · simp
    · cases h : pySplitComma cs <;> simp

lemma seatStrings_ne_nil (v : String) : seatStrings v ≠ [] := by
  rw [seatStrings]
  simp [pySplitComma_ne_nil]

lemma vsn_ok_iff {v : String} :
    validate_seat_numbers v = .ok () ↔ ¬ (v = "" ∨ pyStrip v = "") := by
  rw [validate_seat_numbers]
  split_ifs with h1 h2
  · simp [h1]
  · exact absurd (List.length_eq_zero.mp h2) (seatStrings_ne_nil v)
  · simp [h1]

lemma vpp_ok_iff {v : String} :
    validate_passenger_phone v = .ok () ↔
      (pyStartsWith v "+233" = true ∨ pyStartsWith v "0" = true) := by
  rw [validate_passenger_phone]
  split_ifs with h
  · simp [h]
  · simp [h]

lemma bv_ok_iff {trip : Trip} {req : BookingRequest} :
    booking_validate trip req = .ok () ↔
      ((trip.status = "scheduled" ∨ trip.status = "boarding") ∧
       req.number_of_seats ≤ trip.available_seats ∧
       ((seatStringsNonempty req.seat_numbers).length : Int) = req.number_of_seats) := by
  rw [booking_validate]
  by_cases hA : trip.status = "scheduled" ∨ trip.status = "boarding"
  · rw [if_neg (not_not_intro hA)]
    by_cases hB : trip.available_seats < req.number_of_seats
    · rw [if_pos hB]
      exact iff_of_false (fun h => Except.noConfusion h) (by rintro ⟨_, h, _⟩; omega)
    · rw [if_neg hB]
      by_cases hC : ((seatStringsNonempty req.seat_numbers).length : Int) = req.number_of_seats
      · rw [if_neg (not_not_intro hC)]
        exact iff_of_true rfl ⟨hA, by omega, hC⟩
      · rw [if_pos hC]
        exact iff_of_false (fun h => Except.noConfusion h) (by rintro ⟨_, _, h⟩; exact hC h)
  · rw [if_pos hA]
    exact iff_of_false (fun h => Except.noConfusion h) (by rintro ⟨h, _, _⟩; exact hA h)

lemma create_booking_ok_iff {trip req d n u p} :
    create_booking trip req d n u = .ok p ↔
      (validate_passenger_phone req.passenger_phone = .ok () ∧
       validate_seat_numbers req.seat_numbers = .ok () ∧
       booking_validate trip req = .ok () ∧ p = booking_create trip req d n u) := by
  rw [create_booking]
  cases h1 : validate_passenger_phone req.passenger_phone with
  | error e => simp [h1, Bind.bind, Except.bind]
  | ok a =>
    cases a
    cases h2 : validate_seat_numbers req.seat_numbers with
    | error e => simp [h2, Bind.bind, Except.bind]
    | ok a =>
      cases a
      cases h3 : booking_validate trip req with
      | error e => simp [h3, Bind.bind, Except.bind]
      | ok a =>
        cases a
        simp [h1, h2, h3, Bind.bind, Except.bind, Pure.pure, Except.pure, eq_comm]

lemma create_booking_capacity_error {trip : Trip} {req : BookingRequest} {d : String}
    {n : Int} {u : String}
    (hp : validate_passenger_phone req.passenger_phone = .ok ())
    (hs : validate_seat_numbers req.seat_numbers = .ok ())
    (hA : trip.status = "scheduled" ∨ trip.status = "boarding")
    (hB : trip.available_seats < req.number_of_seats) :
    create_booking trip req d n u =
      .error ("Only " ++ toString trip.available_seats ++ " seats available on this trip") := by
  have hbv : booking_validate trip req =
      .error ("Only " ++ toString trip.available_seats ++ " seats available on this trip") := by
    rw [booking_validate, if_neg (not_not_intro hA), if_pos hB]
  rw [create_booking]
  rw [hp, hs, hbv]
  rfl

/-- Claim C1: when the other validations pass (phone format, seat list
well-formed and matching `number_of_seats`, trip bookable), booking
creation succeeds and decrements `available_seats` by exactly `n` if and
only if `available_seats ≥ n` at the check; when `available_seats < n`
the request is rejected with the capacity error message, no booking is
produced and the trip row is untouched (the serializer returns the error
to the caller without retrying). -/
theorem reserve_checks_capacity (trip : Trip) (req : BookingRequest) (nowDate : String)
    (nowMin : Int) (u : String)
    (hphone : pyStartsWith req.passenger_phone "+233" = true ∨
              pyStartsWith req.passenger_phone "0" = true)
    (hseats : ¬ (req.seat_numbers = "" ∨ pyStrip req.seat_numbers = ""))
    (hstatus : trip.status = "scheduled" ∨ trip.status = "boarding")
    (hcount : ((seatStringsNonempty req.seat_numbers).length : Int) = req.number_of_seats) :
    (req.number_of_seats ≤ trip.available_seats ↔
      create_booking trip req nowDate nowMin u =
        .ok (booking_create trip req nowDate nowMin u)) ∧
    (trip.available_seats < req.number_of_seats →
      create_booking trip req nowDate nowMin u =
        .error ("Only " ++ toString trip.available_seats ++ " seats available on this trip")) ∧
    (∀ b t', create_booking trip req nowDate nowMin u = .ok (b, t') →
      t'.available_seats = trip.available_seats - req.number_of_seats) := by
  have hp := vpp_ok_iff.mpr hphone
  have hs := vsn_ok_iff.mpr hseats
  refine ⟨?_, ?_, ?_⟩
  · constructor
    · intro hcap
      exact create_booking_ok_iff.mpr ⟨hp, hs, bv_ok_iff.mpr ⟨hstatus, hcap, hcount⟩, rfl⟩
    · intro h
      exact ((bv_ok_iff.mp (create_booking_ok_iff.mp h).2.2.1)).2.1
  · intro hB
    exact create_booking_capacity_error hp hs hstatus hB
  · intro b t' h
    have := (create_booking_ok_iff.mp h).2.2.2
    have ht : t' = { trip with available_seats := trip.available_seats - req.number_of_seats } := by
      rw [booking_create] at this
      exact congrArg Prod.snd this
    rw [ht]

/-- Claim C1, witness: a two-seat booking on a ten-seat trip. -/
theorem reserve_checks_capacity_witness :
    (reqFix.number_of_seats ≤ tripFix.available_seats ↔
      create_booking tripFix reqFix "20250101" 0 uuidFix =
        .ok (booking_create tripFix reqFix "20250101" 0 uuidFix)) ∧
    create_booking tripFix reqFix "20250101" 0 uuidFix =
      .ok (booking_create tripFix reqFix "20250101" 0 uuidFix) := by
  have h := reserve_checks_capacity tripFix reqFix "20250101" 0 uuidFix
    (by decide) (by decide) (by decide) (by decide)
  exact ⟨h.1, h.1.mp (by decide)⟩

lemma cancel_ok_iff {b : Booking} {t : Trip} {now : Int} {b' : Booking} {t' : Trip} :
    booking_cancel b t now = .ok (b', t') ↔
      (¬ (b.booking_status = "cancelled" ∨ b.booking_status = "completed") ∧
       now < t.scheduled_departure ∧
       b' = { b with booking_status := "cancelled" } ∧
       t' = { t with available_seats := t.available_seats + b.number_of_seats }) := by
  rw [booking_cancel]
  by_cases h1 : b.booking_status = "cancelled" ∨ b.booking_status = "completed"
  · rw [if_pos h1]
    exact iff_of_false (fun h => Except.noConfusion h) (by rintro ⟨h, _⟩; exact h h1)
  · rw [if_neg h1]
    by_cases h2 : t.scheduled_departure ≤ now
    · rw [if_pos h2]
      exact iff_of_false (fun h => Except.noConfusion h) (by rintro ⟨_, h, _⟩; omega)
    · rw [if_neg h2]
      constructor
      · intro h
        injection h with h
        injection h with hb ht
        exact ⟨h1, by omega, hb.symm, ht.symm⟩
      · rintro ⟨_, _, rfl, rfl⟩
        rfl

lemma refund_ok_iff {p : Payment} {b : Booking} {t : Trip} {r : String} {p' : Payment}
    {b' : Booking} {t' : Trip} :
    payment_refund p b t r = .ok (p', b', t') ↔
      (p.status = "successful" ∧
       p' = { p with status := "refunded", notes := "Refunded: " ++ r } ∧
       b' = { b with payment_status := "refunded", booking_status := "refunded" } ∧
       t' = { t with available_seats := t.available_seats + b.number_of_seats }) := by
  rw [payment_refund]
  by_cases h1 : p.status = "successful"
  · rw [if_neg (by simp [h1])]
    constructor
    · intro h
      injection h with h
      injection h with hp h
      injection h with hb ht
      exact ⟨h1, hp.symm, hb.symm, ht.symm⟩
    · rintro ⟨_, rfl, rfl, rfl⟩
      rfl
  · rw [if_pos (by simp [h1])]
    exact iff_of_false (fun h => Except.noConfusion h) (by rintro ⟨h, _⟩; exact h1 h)

/-- Claim C3 (amended): seat release fires on every accepted operation,
not exactly once per booking: `cancel` releases whenever
`booking_status ∉ {cancelled, completed}` (so a repeated cancel is
rejected), but `refund` releases whenever the payment is `successful`
with no check of the booking's state, so a refund performed after a
cancellation of the same booking releases the seats a second time. -/
theorem seat_release_guards :
    (∀ (b : Booking) (t : Trip) (now : Int) (b' : Booking) (t' : Trip),
        booking_cancel b t now = .ok (b', t') →
        t'.available_seats = t.available_seats + b.number_of_seats ∧
        b'.booking_status = "cancelled") ∧
    (∀ (b : Booking) (t : Trip) (now : Int),
        b.booking_status = "cancelled" ∨ b.booking_status = "completed" →
        booking_cancel b t now = .error "Booking cannot be cancelled") ∧
    (∀ (p : Payment) (b : Booking) (t : Trip) (r : String) (p' : Payment) (b' : Booking)
        (t' : Trip), payment_refund p b t r = .ok (p', b', t') →
        t'.available_seats = t.available_seats + b.number_of_seats ∧
        p'.status = "refunded" ∧ b'.booking_status = "refunded") ∧
    (∀ (p : Payment) (b : Booking) (t : Trip) (r : String), p.status ≠ "successful" →
        payment_refund p b t r = .error "Only successful payments can be refunded") ∧
    (∀ (p : Payment) (b : Booking) (t : Trip) (r : String),
        p.status = "successful" → b.booking_status = "cancelled" →
        ∃ p' b' t', payment_refund p b t r = .ok (p', b', t') ∧
          t'.available_seats = t.available_seats + b.number_of_seats) := by
  refine ⟨?_, ?_, ?_, ?_, ?_⟩
  · intro b t now b' t' h
    obtain ⟨_, _, hb, ht⟩ := cancel_ok_iff.mp h
    exact ⟨by rw [ht], by rw [hb]⟩
  · intro b t now h
    rw [booking_cancel, if_pos h]
  · intro p b t r p' b' t' h
    obtain ⟨_, hp, hb, ht⟩ := refund_ok_iff.mp h
    exact ⟨by rw [ht], by rw [hp], by rw [hb]⟩
  · intro p b t r h
    rw [payment_refund, if_pos (by simp [h])]
  · intro p b t r hp _
    exact ⟨_, _, _, refund_ok_iff.mpr ⟨hp, rfl, rfl, rfl⟩, rfl⟩

/-- Claim C3, witness: a refund of an already-cancelled booking is
accepted and increments the trip seats again. -/
theorem seat_release_guards_witness :
    payFix.status = "successful" ∧ cancelledFix.booking_status = "cancelled" ∧
    (∃ p' b' t', payment_refund payFix cancelledFix tripFix "again" = .ok (p', b', t') ∧
      t'.available_seats = tripFix.available_seats + cancelledFix.number_of_seats) :=
  ⟨by decide, by decide,
    seat_release_guards.2.2.2.2 payFix cancelledFix tripFix "again" (by decide) (by decide)⟩

/-- Claim C3, counterexample: a concrete booking of 2 seats whose
cancellation is accepted (releasing 2 seats) and whose payment refund is
then also accepted (releasing 2 more): the trip ends with
`8 + 2 + 2 = 12` available seats, so release fired twice after the
booking reached a terminal state. -/
theorem cancel_then_refund_releases_twice :
    cancel_refund_chain
        { (booking_create tripFix reqFix "20250101" 0 uuidFix).1 with
            booking_status := "confirmed", payment_status := "paid" }
        (booking_create tripFix reqFix "20250101" 0 uuidFix).2 payFix = .ok 12 ∧
    (booking_create tripFix reqFix "20250101" 0 uuidFix).2.available_seats = 8 ∧
    ((booking_create tripFix reqFix "20250101" 0 uuidFix).1).number_of_seats = 2 := by
  refine ⟨by decide, by decide, by decide⟩

/-- Claim C4 (amended): booking creation preserves
`0 ≤ available_seats` (it only decrements when enough seats remain) and
never touches `total_seats`, but cancellation and refund increment
`available_seats` by `number_of_seats` with no cap at `total_seats`:
the upper bound of the intended invariant is not enforced. -/
theorem seat_bounds_unclamped :
    (∀ (trip : Trip) (req : BookingRequest) (d : String) (nMin : Int) (u : String)
        (b : Booking) (t' : Trip), create_booking trip req d nMin u = .ok (b, t') →
        t'.total_seats = trip.total_seats ∧
        t'.available_seats = trip.available_seats - req.number_of_seats ∧
        (0 ≤ trip.available_seats → 0 ≤ t'.available_seats)) ∧
    (∀ (b : Booking) (t : Trip) (now : Int) (b' : Booking) (t' : Trip),
        booking_cancel b t now = .ok (b', t') →
        t'.total_seats = t.total_seats ∧
        t'.available_seats = t.available_seats + b.number_of_seats) ∧
    (∀ (p : Payment) (b : Booking) (t : Trip) (r : String) (p' : Payment) (b' : Booking)
        (t' : Trip), payment_refund p b t r = .ok (p', b', t') →
        t'.total_seats = t.total_seats ∧
        t'.available_seats = t.available_seats + b.number_of_seats) := by
  refine ⟨?_, ?_, ?_⟩
  · intro trip req d nMin u b t' h
    obtain ⟨_, _, hbv, hp⟩ := create_booking_ok_iff.mp h
    obtain ⟨_, hcap, _⟩ := bv_ok_iff.mp hbv
    have ht : t' = { trip with available_seats := trip.available_seats - req.number_of_seats } :=
      congrArg Prod.snd hp
    refine ⟨by rw [ht], by rw [ht], ?_⟩
    rw [ht]
    intro _
    show 0 ≤ trip.available_seats - req.number_of_seats
    omega
  · intro b t now b' t' h
    obtain ⟨_, _, _, ht⟩ := cancel_ok_iff.mp h
    exact ⟨by rw [ht], by rw [ht]⟩
  · intro p b t r p' b' t' h
    obtain ⟨_, _, _, ht⟩ := refund_ok_iff.mp h
    exact ⟨by rw [ht], by rw [ht]⟩

/-- Claim C4, witness: a concrete accepted cancellation adds the seats
back uncapped while `total_seats` is unchanged. -/
theorem seat_bounds_unclamped_witness :
    booking_cancel cancelledWontFix tripFix 5 = .ok
        ({ cancelledWontFix with booking_status := "cancelled" },
         { tripFix with available_seats := tripFix.available_seats +
             cancelledWontFix.number_of_seats }) ∧
    ({ tripFix with available_seats := tripFix.available_seats +
        cancelledWontFix.number_of_seats } : Trip).total_seats = tripFix.total_seats :=
  ⟨by decide,
    (seat_bounds_unclamped.2.1 cancelledWontFix tripFix 5
      { cancelledWontFix with booking_status := "cancelled" }
      { tripFix with available_seats := tripFix.available_seats +
          cancelledWontFix.number_of_seats }
      (by decide)).1⟩

/-- Claim C4, counterexample: book 2 seats on a full 10-seat trip, cancel
the booking, then refund its successful payment — every step accepted —
and `available_seats` ends at 12, exceeding `total_seats = 10`. -/
theorem seats_exceed_capacity :
    overbook_chain = .ok (12, 10) ∧ ¬ ((12 : Int) ≤ 10) := by
  exact ⟨by decide, by decide⟩

/-- Claim C6: a successful booking of `n` seats followed by an accepted
cancellation of that booking restores the trip's `available_seats` to
exactly its value before the booking. -/
theorem reserve_then_cancel_restores_seats (trip : Trip) (req : BookingRequest)
    (d : String) (nMin : Int) (u : String) (now : Int) (b b2 : Booking) (t1 t2 : Trip)
    (h1 : create_booking trip req d nMin u = .ok (b, t1))
    (h2 : booking_cancel b t1 now = .ok (b2, t2)) :
    t2.available_seats = trip.available_seats := by
  have hp := (create_booking_ok_iff.mp h1).2.2.2
  have hb : b = (booking_create trip req d nMin u).1 := congrArg Prod.fst hp
  have ht1 : t1 = (booking_create trip req d nMin u).2 := congrArg Prod.snd hp
  have hbn : b.number_of_seats = req.number_of_seats := by rw [hb]; rfl
  have ht1a : t1.available_seats = trip.available_seats - req.number_of_seats := by
    rw [ht1]; rfl
  obtain ⟨_, _, _, ht2⟩ := cancel_ok_iff.mp h2
  have : t2.available_seats = t1.available_seats + b.number_of_seats := by rw [ht2]
  omega

/-- Claim C6, witness: the round trip on the concrete two-seat booking. -/
theorem reserve_then_cancel_restores_seats_witness :
    create_booking tripFix reqFix "20250101" 0 uuidFix = .ok (bookedFix, tripAfterFix) ∧
    booking_cancel bookedFix tripAfterFix 5 = .ok
      ({ bookedFix with booking_status := "cancelled" }, tripRestoredFix) ∧
    tripRestoredFix.available_seats = tripFix.available_seats :=
  ⟨by decide, by decide,
    reserve_then_cancel_restores_seats tripFix reqFix "20250101" 0 uuidFix 5
      bookedFix { bookedFix with booking_status := "cancelled" } tripAfterFix tripRestoredFix
      (by decide) (by decide)⟩

/-- Claim C9: every created booking has `fare_per_seat` equal to the
trip's fare, `total_fare = fare_per_seat * number_of_seats`, the fixed
booking fee of 2.00 GHS (200 hundredths), `total_amount` equal to
`total_fare` plus the fee, and a payment deadline of creation time plus
2 hours (120 minutes). -/
theorem booking_pricing (trip : Trip) (req : BookingRequest) (d : String) (nMin : Int)
    (u : String) (b : Booking) (t' : Trip)
    (h : create_booking trip req d nMin u = .ok (b, t')) :
    b.fare_per_seat = trip.fare ∧
    b.total_fare = trip.fare * req.number_of_seats ∧
    b.booking_fee = 200 ∧
    b.total_amount = b.total_fare + b.booking_fee ∧
    b.payment_deadline = nMin + 120 := by
  have hb : b = (booking_create trip req d nMin u).1 :=
    congrArg Prod.fst (create_booking_ok_iff.mp h).2.2.2
  rw [hb]
  exact ⟨rfl, rfl, rfl, rfl, rfl⟩

/-- Claim C9, witness: the pricing fields of the concrete booking. -/
theorem booking_pricing_witness :
    create_booking tripFix reqFix "20250101" 0 uuidFix = .ok (bookedFix, tripAfterFix) ∧
    bookedFix.fare_per_seat = tripFix.fare ∧
    bookedFix.total_fare = tripFix.fare * reqFix.number_of_seats ∧
    bookedFix.booking_fee = 200 ∧
    bookedFix.total_amount = bookedFix.total_fare + bookedFix.booking_fee ∧
    bookedFix.payment_deadline = 0 + 120 :=
  ⟨by decide,
    booking_pricing tripFix reqFix "20250101" 0 uuidFix bookedFix tripAfterFix (by decide)⟩

lemma create_payment_ok_iff {booking : Booking} {req : PaymentRequest} {d u : String}
    {p : Payment} :
    create_payment booking req d u = .ok p ↔
      (validate_mobile_money_number req.mobile_money_number = .ok () ∧
       payment_validate booking req = .ok () ∧ p = payment_create booking req d u) := by
  rw [create_payment]
  cases h1 : validate_mobile_money_number req.mobile_money_number with
  | error e => simp [h1, Bind.bind, Except.bind]
  | ok a =>
    cases a
    cases h2 : payment_validate booking req with
    | error e => simp [h2, Bind.bind, Except.bind]
    | ok a =>
      cases a
      simp [h1, h2, Bind.bind, Except.bind, Pure.pure, Except.pure, eq_comm]

lemma payment_validate_ok_not_paid {booking : Booking} {req : PaymentRequest}
    (h : payment_validate booking req = .ok ()) : booking.payment_status ≠ "paid" := by
  rw [payment_validate] at h
  split_ifs at h with h1 h2 h3
  · exact h3

/-- Claim C10: a payment-creation request against a booking whose
`payment_status` is already `paid` is rejected with a validation error
and produces no payment; any payment that is created carries
`amount = booking.total_amount` and currency `GHS`. -/
theorem payment_paid_guard (booking : Booking) (req : PaymentRequest) (d u : String) :
    (booking.payment_status = "paid" → ∀ p, create_payment booking req d u ≠ .ok p) ∧
    (∀ p, create_payment booking req d u = .ok p →
        p.amount = booking.total_amount ∧ p.currency = "GHS") := by
  constructor
  · intro hpaid p hok
    exact payment_validate_ok_not_paid (create_payment_ok_iff.mp hok).2.1 hpaid
  · intro p hok
    have hp : p = payment_create booking req d u := (create_payment_ok_iff.mp hok).2.2
    rw [hp]
    exact ⟨rfl, rfl⟩

/-- Claim C10, witness: a cash payment against the concrete unpaid
booking. -/
theorem payment_paid_guard_witness :
    create_payment bookedFix payReqFix "20250101" uuidFix =
      .ok (payment_create bookedFix payReqFix "20250101" uuidFix) ∧
    (payment_create bookedFix payReqFix "20250101" uuidFix).amount = bookedFix.total_amount ∧
    (payment_create bookedFix payReqFix "20250101" uuidFix).currency = "GHS" :=
  ⟨by decide,
    (payment_paid_guard bookedFix payReqFix "20250101" uuidFix).2
      (payment_create bookedFix payReqFix "20250101" uuidFix) (by decide)⟩

/-- Claim C8: with `u` in `str(uuid.uuid4())` format, every booking
reference is `KB` + date token + 6 uppercase-hex characters, every
payment reference is `PAY` + date token + 8 uppercase-hex characters, and
every luggage tag is `LG` + date token + 6 uppercase-hex characters. -/
theorem reference_formats (d u : String) (h : uuid4Format u) :
    (∀ (trip : Trip) (req : BookingRequest) (nMin : Int) (b : Booking) (t' : Trip),
        create_booking trip req d nMin u = .ok (b, t') →
        ∃ suf, b.booking_reference = "KB" ++ d ++ suf ∧ suf.data.length = 6 ∧
          ∀ c ∈ suf.data, upperHexChar c = true) ∧
    (∀ (booking : Booking) (req : PaymentRequest),
        ∃ suf, (payment_create booking req d u).payment_reference = "PAY" ++ d ++ suf ∧
          suf.data.length = 8 ∧ ∀ c ∈ suf.data, upperHexChar c = true) ∧
    (∃ suf, luggage_tag d u = "LG" ++ d ++ suf ∧ suf.data.length = 6 ∧
        ∀ c ∈ suf.data, upperHexChar c = true) := by
  refine ⟨?_, ?_, ?_⟩
  · intro trip req nMin b t' hok
    refine ⟨pyUpper (pyTake u 6), ?_, (hex_suffix_aux 6 (by omega) h).1,
      (hex_suffix_aux 6 (by omega) h).2⟩
    have hb : b = (booking_create trip req d nMin u).1 :=
      congrArg Prod.fst (create_booking_ok_iff.mp hok).2.2.2
    rw [hb]
    rfl
  · intro booking req
    exact ⟨pyUpper (pyTake u 8), rfl, (hex_suffix_aux 8 (by omega) h).1,
      (hex_suffix_aux 8 (by omega) h).2⟩
  · exact ⟨pyUpper (pyTake u 6), rfl, (hex_suffix_aux 6 (by omega) h).1,
      (hex_suffix_aux 6 (by omega) h).2⟩

/-- Claim C8, witness: the luggage-tag clause at a concrete UUID. -/
theorem reference_formats_witness :
    uuid4Format uuidFix ∧
    (∃ suf, luggage_tag "20250101" uuidFix = "LG" ++ "20250101" ++ suf ∧
      suf.data.length = 6 ∧ ∀ c ∈ suf.data, upperHexChar c = true) :=
  ⟨by decide, (reference_formats "20250101" uuidFix (by decide)).2.2⟩
